import Mathlib

/-!
Verification of the geth namespace binding layer (`web3/geth.py`).

The file under verification is a thin client-side binding layer exposing the
go-ethereum administrative JSON-RPC namespaces (`personal`, `admin`, `miner`,
`txpool`) as typed method calls, sync and async, with deprecated camelCase
aliases.  Each exposed operation delegates to an underlying `Method` object
(imported from `web3._utils.personal` / `admin` / `miner` / `txpool`), which
serializes a JSON-RPC method name plus ordered parameters into one dispatcher
call and returns the decoded result, or propagates the dispatcher's error.

Embedding: JSON values are an inductive `Value`.  A `Dispatcher E` is the
external collaborator: a response function from an `RpcCall` (method string +
ordered params) to `Except E Value`.  An operation invocation is modelled as a
`CallResult E`: the list of dispatcher calls it issues, paired with its
outcome.  The `web3._utils.*` method objects are not part of the file under
verification, so they are modelled from the spec (see the `Utils*` namespaces);
the namespace classes themselves are translated directly from `web3/geth.py`.

A second, syntactic layer (`PyParam` / `PyMethod` / `PyClass`) transcribes the
declared surface of `web3/geth.py` — which classes exist, which methods each
exposes, which parameters have defaults, and which methods are `async` — for
the claims that are about the declared API surface rather than run-time
behaviour.
-/

/-- A JSON value as sent to / decoded from the RPC endpoint. -/
inductive Value where
  | null : Value
  | bool : Bool → Value
  | int : Int → Value
  | str : String → Value
  | arr : List Value → Value

/-- One JSON-RPC call: a method name and ordered parameters. -/
structure RpcCall where
  method : String
  params : List Value

/-- The external call dispatcher ("RPC endpoint"): given a call it returns a
decoded result or an error of type `E`.  This layer only invokes it. -/
structure Dispatcher (E : Type) where
  respond : RpcCall → Except E Value

/-- The observable behaviour of one operation invocation: the dispatcher calls
it issued, in order, and its outcome. -/
structure CallResult (E : Type) where
  calls : List RpcCall
  result : Except E Value

variable {E : Type}

/-- Issue exactly one dispatcher call with the given method string and ordered
parameters, returning whatever the dispatcher decodes or raises. -/
def Dispatcher.callOne (d : Dispatcher E) (m : String) (ps : List Value) :
    CallResult E :=
  ⟨[⟨m, ps⟩], d.respond ⟨m, ps⟩⟩

namespace UtilsPersonal

/-- Modelled from the spec: the `Method` object `ec_recover` of
`web3._utils.personal` is not under src/; per spec §6 it maps to the JSON-RPC
method string `personal_ecRecover` and per spec §8 it issues exactly one
dispatcher call with its arguments as ordered parameters, untransformed. -/
def ec_recover (d : Dispatcher E) (message signature : Value) : CallResult E :=
  d.callOne "personal_ecRecover" [message, signature]

/-- Modelled from the spec: `import_raw_key` of `web3._utils.personal`, JSON-RPC
method `personal_importRawKey`, one dispatcher call, params in order. -/
def import_raw_key (d : Dispatcher E) (private_key passphrase : Value) :
    CallResult E :=
  d.callOne "personal_importRawKey" [private_key, passphrase]

/-- Modelled from the spec: `list_accounts` of `web3._utils.personal`, JSON-RPC
method `personal_listAccounts`, one dispatcher call with no parameters. -/
def list_accounts (d : Dispatcher E) : CallResult E :=
  d.callOne "personal_listAccounts" []

/-- Modelled from the spec: `list_wallets` of `web3._utils.personal`, JSON-RPC
method `personal_listWallets`, one dispatcher call with no parameters. -/
def list_wallets (d : Dispatcher E) : CallResult E :=
  d.callOne "personal_listWallets" []

/-- Modelled from the spec: `lock_account` of `web3._utils.personal`, JSON-RPC
method `personal_lockAccount`, one dispatcher call, params in order. -/
def lock_account (d : Dispatcher E) (account : Value) : CallResult E :=
  d.callOne "personal_lockAccount" [account]

/-- Modelled from the spec: `new_account` of `web3._utils.personal`, JSON-RPC
method `personal_newAccount`, one dispatcher call, params in order. -/
def new_account (d : Dispatcher E) (passphrase : Value) : CallResult E :=
  d.callOne "personal_newAccount" [passphrase]

/-- Modelled from the spec: `send_transaction` of `web3._utils.personal`,
JSON-RPC method `personal_sendTransaction`, one dispatcher call, params in
order. -/
def send_transaction (d : Dispatcher E) (transaction passphrase : Value) :
    CallResult E :=
  d.callOne "personal_sendTransaction" [transaction, passphrase]

/-- Modelled from the spec: `sign` of `web3._utils.personal`, JSON-RPC method
`personal_sign`, one dispatcher call, params in order. -/
def sign (d : Dispatcher E) (message account password : Value) : CallResult E :=
  d.callOne "personal_sign" [message, account, password]

/-- Modelled from the spec: `sign_typed_data` of `web3._utils.personal`,
JSON-RPC method `personal_signTypedData`, one dispatcher call, params in
order. -/
def sign_typed_data (d : Dispatcher E) (message account password : Value) :
    CallResult E :=
  d.callOne "personal_signTypedData" [message, account, password]

/-- Modelled from the spec: `unlock_account` of `web3._utils.personal`,
JSON-RPC method `personal_unlockAccount`, one dispatcher call, params in
order. -/
def unlock_account (d : Dispatcher E) (account passphrase duration : Value) :
    CallResult E :=
  d.callOne "personal_unlockAccount" [account, passphrase, duration]

/-- Modelled from the spec: the deprecated `ecRecover` of
`web3._utils.personal` is not under src/; per spec §4.5 every deprecated
camelCase alias is bound to the identical underlying implementation as its
snake_case counterpart. -/
def ecRecover (d : Dispatcher E) (message signature : Value) : CallResult E :=
  ec_recover d message signature

/-- Modelled from the spec: deprecated `importRawKey`, identical underlying
implementation as `import_raw_key` (spec §4.5). -/
def importRawKey (d : Dispatcher E) (private_key passphrase : Value) :
    CallResult E :=
  import_raw_key d private_key passphrase

/-- Modelled from the spec: deprecated `listAccounts`, identical underlying
implementation as `list_accounts` (spec §4.5). -/
def listAccounts (d : Dispatcher E) : CallResult E :=
  list_accounts d

/-- Modelled from the spec: deprecated `lockAccount`, identical underlying
implementation as `lock_account` (spec §4.5). -/
def lockAccount (d : Dispatcher E) (account : Value) : CallResult E :=
  lock_account d account

/-- Modelled from the spec: deprecated `newAccount`, identical underlying
implementation as `new_account` (spec §4.5). -/
def newAccount (d : Dispatcher E) (passphrase : Value) : CallResult E :=
  new_account d passphrase

/-- Modelled from the spec: deprecated `sendTransaction`, identical underlying
implementation as `send_transaction` (spec §4.5). -/
def sendTransaction (d : Dispatcher E) (transaction passphrase : Value) :
    CallResult E :=
  send_transaction d transaction passphrase

/-- Modelled from the spec: deprecated `signTypedData`, identical underlying
implementation as `sign_typed_data` (spec §4.5). -/
def signTypedData (d : Dispatcher E) (message account password : Value) :
    CallResult E :=
  sign_typed_data d message account password

/-- Modelled from the spec: deprecated `unlockAccount`, identical underlying
implementation as `unlock_account` (spec §4.5). -/
def unlockAccount (d : Dispatcher E) (account passphrase duration : Value) :
    CallResult E :=
  unlock_account d account passphrase duration

end UtilsPersonal

namespace UtilsAdmin

/-- Modelled from the spec: the `Method` object `add_peer` of
`web3._utils.admin` is not under src/; per spec §4.2 and §6 it adds a peer by
connection string via JSON-RPC method `admin_addPeer`, issuing exactly one
dispatcher call with its argument as the parameter. -/
def add_peer (d : Dispatcher E) (url : Value) : CallResult E :=
  d.callOne "admin_addPeer" [url]

/-- Modelled from the spec: `node_info` of `web3._utils.admin`, JSON-RPC
method `admin_nodeInfo`, one dispatcher call with no parameters. -/
def node_info (d : Dispatcher E) : CallResult E :=
  d.callOne "admin_nodeInfo" []

/-- Modelled from the spec: `peers` of `web3._utils.admin`, JSON-RPC method
`admin_peers`, one dispatcher call with no parameters. -/
def peers (d : Dispatcher E) : CallResult E :=
  d.callOne "admin_peers" []

/-- Modelled from the spec: `datadir` of `web3._utils.admin`, JSON-RPC method
`admin_datadir`, one dispatcher call with no parameters. -/
def datadir (d : Dispatcher E) : CallResult E :=
  d.callOne "admin_datadir" []

/-- Modelled from the spec: `start_rpc` of `web3._utils.admin`, JSON-RPC
method `admin_startRPC`; the spec does not fix this operation's arity, so it
is modelled as passing its argument list through in order, in one dispatcher
call. -/
def start_rpc (d : Dispatcher E) (args : List Value) : CallResult E :=
  d.callOne "admin_startRPC" args

/-- Modelled from the spec: `start_ws` of `web3._utils.admin`, JSON-RPC method
`admin_startWS`; arity not fixed by the spec, arguments passed through in
order, one dispatcher call. -/
def start_ws (d : Dispatcher E) (args : List Value) : CallResult E :=
  d.callOne "admin_startWS" args

/-- Modelled from the spec: `stop_rpc` of `web3._utils.admin`, JSON-RPC method
`admin_stopRPC`, one dispatcher call with no parameters. -/
def stop_rpc (d : Dispatcher E) : CallResult E :=
  d.callOne "admin_stopRPC" []

/-- Modelled from the spec: `stop_ws` of `web3._utils.admin`, JSON-RPC method
`admin_stopWS`, one dispatcher call with no parameters. -/
def stop_ws (d : Dispatcher E) : CallResult E :=
  d.callOne "admin_stopWS" []

/-- Modelled from the spec: deprecated `addPeer`, identical underlying
implementation as `add_peer` (spec §4.5). -/
def addPeer (d : Dispatcher E) (url : Value) : CallResult E :=
  add_peer d url

/-- Modelled from the spec: deprecated `nodeInfo`, identical underlying
implementation as `node_info` (spec §4.5). -/
def nodeInfo (d : Dispatcher E) : CallResult E :=
  node_info d

/-- Modelled from the spec: deprecated `startRPC`, identical underlying
implementation as `start_rpc` (spec §4.5). -/
def startRPC (d : Dispatcher E) (args : List Value) : CallResult E :=
  start_rpc d args

/-- Modelled from the spec: deprecated `startWS`, identical underlying
implementation as `start_ws` (spec §4.5). -/
def startWS (d : Dispatcher E) (args : List Value) : CallResult E :=
  start_ws d args

/-- Modelled from the spec: deprecated `stopRPC`, identical underlying
implementation as `stop_rpc` (spec §4.5). -/
def stopRPC (d : Dispatcher E) : CallResult E :=
  stop_rpc d

/-- Modelled from the spec: deprecated `stopWS`, identical underlying
implementation as `stop_ws` (spec §4.5). -/
def stopWS (d : Dispatcher E) : CallResult E :=
  stop_ws d

end UtilsAdmin

namespace UtilsMiner

/-- Modelled from the spec: the `Method` object `make_dag` of
`web3._utils.miner` is not under src/; per spec §4.3 and §6 it generates the
DAG for a given block number via JSON-RPC method `miner_makeDag`, issuing
exactly one dispatcher call with its argument as the parameter. -/
def make_dag (d : Dispatcher E) (number : Value) : CallResult E :=
  d.callOne "miner_makeDag" [number]

/-- Modelled from the spec: `set_extra` of `web3._utils.miner`, JSON-RPC
method `miner_setExtra`, one dispatcher call, its argument as the parameter. -/
def set_extra (d : Dispatcher E) (extra : Value) : CallResult E :=
  d.callOne "miner_setExtra" [extra]

/-- Modelled from the spec: `set_etherbase` of `web3._utils.miner`, JSON-RPC
method `miner_setEtherbase`, one dispatcher call, its argument as the
parameter. -/
def set_etherbase (d : Dispatcher E) (etherbase : Value) : CallResult E :=
  d.callOne "miner_setEtherbase" [etherbase]

/-- Modelled from the spec: `set_gas_price` of `web3._utils.miner`, JSON-RPC
method `miner_setGasPrice`, one dispatcher call, its argument as the
parameter. -/
def set_gas_price (d : Dispatcher E) (gas_price : Value) : CallResult E :=
  d.callOne "miner_setGasPrice" [gas_price]

/-- Modelled from the spec: `start` of `web3._utils.miner`, JSON-RPC method
`miner_start`; mining starts with an optional thread count, so the argument
list is passed through in order, in one dispatcher call. -/
def start (d : Dispatcher E) (args : List Value) : CallResult E :=
  d.callOne "miner_start" args

/-- Modelled from the spec: `stop` of `web3._utils.miner`, JSON-RPC method
`miner_stop`, one dispatcher call with no parameters. -/
def stop (d : Dispatcher E) : CallResult E :=
  d.callOne "miner_stop" []

/-- Modelled from the spec: `start_auto_dag` of `web3._utils.miner`, JSON-RPC
method `miner_startAutoDag`, one dispatcher call with no parameters. -/
def start_auto_dag (d : Dispatcher E) : CallResult E :=
  d.callOne "miner_startAutoDag" []

/-- Modelled from the spec: `stop_auto_dag` of `web3._utils.miner`, JSON-RPC
method `miner_stopAutoDag`, one dispatcher call with no parameters. -/
def stop_auto_dag (d : Dispatcher E) : CallResult E :=
  d.callOne "miner_stopAutoDag" []

/-- Modelled from the spec: deprecated `makeDag`, identical underlying
implementation as `make_dag` (spec §4.5). -/
def makeDag (d : Dispatcher E) (number : Value) : CallResult E :=
  make_dag d number

/-- Modelled from the spec: deprecated `setExtra`, identical underlying
implementation as `set_extra` (spec §4.5). -/
def setExtra (d : Dispatcher E) (extra : Value) : CallResult E :=
  set_extra d extra

/-- Modelled from the spec: deprecated `setEtherbase`, identical underlying
implementation as `set_etherbase` (spec §4.5). -/
def setEtherbase (d : Dispatcher E) (etherbase : Value) : CallResult E :=
  set_etherbase d etherbase

/-- Modelled from the spec: deprecated `setGasPrice`, identical underlying
implementation as `set_gas_price` (spec §4.5). -/
def setGasPrice (d : Dispatcher E) (gas_price : Value) : CallResult E :=
  set_gas_price d gas_price

/-- Modelled from the spec: deprecated `startAutoDag`, identical underlying
implementation as `start_auto_dag` (spec §4.5). -/
def startAutoDag (d : Dispatcher E) : CallResult E :=
  start_auto_dag d

/-- Modelled from the spec: deprecated `stopAutoDag`, identical underlying
implementation as `stop_auto_dag` (spec §4.5). -/
def stopAutoDag (d : Dispatcher E) : CallResult E :=
  stop_auto_dag d

end UtilsMiner

namespace UtilsTxPool

/-- Modelled from the spec: the `Method` object `content` of
`web3._utils.txpool` is not under src/; per spec §6 it maps to JSON-RPC method
`txpool_content`, one dispatcher call with no parameters. -/
def content (d : Dispatcher E) : CallResult E :=
  d.callOne "txpool_content" []

/-- Modelled from the spec: `inspect` of `web3._utils.txpool`, JSON-RPC method
`txpool_inspect`, one dispatcher call with no parameters. -/
def inspect (d : Dispatcher E) : CallResult E :=
  d.callOne "txpool_inspect" []

/-- Modelled from the spec: `status` of `web3._utils.txpool`, JSON-RPC method
`txpool_status`, one dispatcher call with no parameters. -/
def status (d : Dispatcher E) : CallResult E :=
  d.callOne "txpool_status" []

end UtilsTxPool

namespace GethPersonal

/-- From `GethPersonal.ec_recover` (geth.py line 116): delegates to the class
attribute `_ec_recover = ec_recover` inherited from `BaseGethPersonal`. -/
def ec_recover (d : Dispatcher E) (message signature : Value) : CallResult E :=
  UtilsPersonal.ec_recover d message signature

/-- From `GethPersonal.import_raw_key` (geth.py line 119). -/
def import_raw_key (d : Dispatcher E) (private_key passphrase : Value) :
    CallResult E :=
  UtilsPersonal.import_raw_key d private_key passphrase

/-- From `GethPersonal.list_accounts` (geth.py line 122). -/
def list_accounts (d : Dispatcher E) : CallResult E :=
  UtilsPersonal.list_accounts d

/-- From `GethPersonal.list_wallets` (geth.py line 125). -/
def list_wallets (d : Dispatcher E) : CallResult E :=
  UtilsPersonal.list_wallets d

/-- From `GethPersonal.lock_account` (geth.py line 128). -/
def lock_account (d : Dispatcher E) (account : Value) : CallResult E :=
  UtilsPersonal.lock_account d account

/-- From `GethPersonal.new_account` (geth.py line 131). -/
def new_account (d : Dispatcher E) (passphrase : Value) : CallResult E :=
  UtilsPersonal.new_account d passphrase

/-- From `GethPersonal.send_transaction` (geth.py line 134). -/
def send_transaction (d : Dispatcher E) (transaction passphrase : Value) :
    CallResult E :=
  UtilsPersonal.send_transaction d transaction passphrase

/-- From `GethPersonal.sign` (geth.py line 137); `password` is required (it has
no default in the Python signature, though its value may be `None`). -/
def sign (d : Dispatcher E) (message account password : Value) : CallResult E :=
  UtilsPersonal.sign d message account password

/-- From `GethPersonal.sign_typed_data` (geth.py lines 140-144); `password` is
required (no default in the Python signature). -/
def sign_typed_data (d : Dispatcher E) (message account password : Value) :
    CallResult E :=
  UtilsPersonal.sign_typed_data d message account password

/-- From `GethPersonal.unlock_account` (geth.py lines 146-150); `duration` has
Python default `None`.  A caller that omits it is modelled by `none`; the body
substitutes the default `None` (`Value.null`) and passes it through. -/
def unlock_account (d : Dispatcher E) (account passphrase : Value)
    (duration : Option Value) : CallResult E :=
  UtilsPersonal.unlock_account d account passphrase (duration.getD Value.null)

/-- From `GethPersonal.ecRecover` (geth.py line 152): delegates to the class
attribute `_ecRecover = ecRecover`. -/
def ecRecover (d : Dispatcher E) (message signature : Value) : CallResult E :=
  UtilsPersonal.ecRecover d message signature

/-- From `GethPersonal.importRawKey` (geth.py line 155). -/
def importRawKey (d : Dispatcher E) (private_key passphrase : Value) :
    CallResult E :=
  UtilsPersonal.importRawKey d private_key passphrase

/-- From `GethPersonal.listAccounts` (geth.py line 158). -/
def listAccounts (d : Dispatcher E) : CallResult E :=
  UtilsPersonal.listAccounts d

/-- From `GethPersonal.lockAccount` (geth.py line 161). -/
def lockAccount (d : Dispatcher E) (account : Value) : CallResult E :=
  UtilsPersonal.lockAccount d account

/-- From `GethPersonal.newAccount` (geth.py line 164). -/
def newAccount (d : Dispatcher E) (passphrase : Value) : CallResult E :=
  UtilsPersonal.newAccount d passphrase

/-- From `GethPersonal.sendTransaction` (geth.py line 167). -/
def sendTransaction (d : Dispatcher E) (transaction passphrase : Value) :
    CallResult E :=
  UtilsPersonal.sendTransaction d transaction passphrase

/-- From `GethPersonal.signTypedData` (geth.py lines 170-174); unlike the
canonical `sign_typed_data`, here `password` has Python default `None`: an
omitted password is modelled by `none` and the default `None` (`Value.null`)
is passed through. -/
def signTypedData (d : Dispatcher E) (message account : Value)
    (password : Option Value) : CallResult E :=
  UtilsPersonal.signTypedData d message account (password.getD Value.null)

/-- From `GethPersonal.unlockAccount` (geth.py lines 176-180); `duration` has
Python default `None`. -/
def unlockAccount (d : Dispatcher E) (account passphrase : Value)
    (duration : Option Value) : CallResult E :=
  UtilsPersonal.unlockAccount d account passphrase (duration.getD Value.null)

end GethPersonal

namespace AsyncGethPersonal

/-- From `AsyncGethPersonal.ec_recover` (geth.py line 186): an `async def` that
awaits the shared class attribute `_ec_recover`; the awaited resolution is
modelled as the returned `CallResult`. -/
def ec_recover (d : Dispatcher E) (message signature : Value) : CallResult E :=
  UtilsPersonal.ec_recover d message signature

/-- From `AsyncGethPersonal.import_raw_key` (geth.py line 189). -/
def import_raw_key (d : Dispatcher E) (private_key passphrase : Value) :
    CallResult E :=
  UtilsPersonal.import_raw_key d private_key passphrase

/-- From `AsyncGethPersonal.list_accounts` (geth.py line 192). -/
def list_accounts (d : Dispatcher E) : CallResult E :=
  UtilsPersonal.list_accounts d

/-- From `AsyncGethPersonal.list_wallets` (geth.py line 195). -/
def list_wallets (d : Dispatcher E) : CallResult E :=
  UtilsPersonal.list_wallets d

/-- From `AsyncGethPersonal.lock_account` (geth.py line 198). -/
def lock_account (d : Dispatcher E) (account : Value) : CallResult E :=
  UtilsPersonal.lock_account d account

/-- From `AsyncGethPersonal.new_account` (geth.py line 201). -/
def new_account (d : Dispatcher E) (passphrase : Value) : CallResult E :=
  UtilsPersonal.new_account d passphrase

/-- From `AsyncGethPersonal.send_transaction` (geth.py line 204). -/
def send_transaction (d : Dispatcher E) (transaction passphrase : Value) :
    CallResult E :=
  UtilsPersonal.send_transaction d transaction passphrase

/-- From `AsyncGethPersonal.sign` (geth.py lines 207-211). -/
def sign (d : Dispatcher E) (message account password : Value) : CallResult E :=
  UtilsPersonal.sign d message account password

/-- From `AsyncGethPersonal.sign_typed_data` (geth.py lines 213-217);
`password` is required (no default in the Python signature). -/
def sign_typed_data (d : Dispatcher E) (message account password : Value) :
    CallResult E :=
  UtilsPersonal.sign_typed_data d message account password

/-- From `AsyncGethPersonal.unlock_account` (geth.py lines 219-223);
`duration` has Python default `None`. -/
def unlock_account (d : Dispatcher E) (account passphrase : Value)
    (duration : Option Value) : CallResult E :=
  UtilsPersonal.unlock_account d account passphrase (duration.getD Value.null)

end AsyncGethPersonal

namespace GethTxPool

/-- From `GethTxPool.content` (geth.py line 238): delegates to the class
attribute `_content = content` inherited from `BaseTxPool`. -/
def content (d : Dispatcher E) : CallResult E :=
  UtilsTxPool.content d

/-- From `GethTxPool.inspect` (geth.py line 241). -/
def inspect (d : Dispatcher E) : CallResult E :=
  UtilsTxPool.inspect d

/-- From `GethTxPool.status` (geth.py line 244). -/
def status (d : Dispatcher E) : CallResult E :=
  UtilsTxPool.status d

end GethTxPool

namespace AsyncGethTxPool

/-- From `AsyncGethTxPool.content` (geth.py line 251): an `async def` awaiting
the shared `_content`; the awaited resolution is the returned `CallResult`. -/
def content (d : Dispatcher E) : CallResult E :=
  UtilsTxPool.content d

/-- From `AsyncGethTxPool.inspect` (geth.py line 254). -/
def inspect (d : Dispatcher E) : CallResult E :=
  UtilsTxPool.inspect d

/-- From `AsyncGethTxPool.status` (geth.py line 257). -/
def status (d : Dispatcher E) : CallResult E :=
  UtilsTxPool.status d

end AsyncGethTxPool

namespace GethAdmin

/-- From `GethAdmin` (geth.py line 265): the class attribute
`add_peer = add_peer` binds the imported method object directly. -/
def add_peer (d : Dispatcher E) (url : Value) : CallResult E :=
  UtilsAdmin.add_peer d url

/-- From `GethAdmin.node_info` (geth.py line 266). -/
def node_info (d : Dispatcher E) : CallResult E :=
  UtilsAdmin.node_info d

/-- From `GethAdmin.start_rpc` (geth.py line 267). -/
def start_rpc (d : Dispatcher E) (args : List Value) : CallResult E :=
  UtilsAdmin.start_rpc d args

/-- From `GethAdmin.start_ws` (geth.py line 268). -/
def start_ws (d : Dispatcher E) (args : List Value) : CallResult E :=
  UtilsAdmin.start_ws d args

/-- From `GethAdmin.stop_ws` (geth.py line 269). -/
def stop_ws (d : Dispatcher E) : CallResult E :=
  UtilsAdmin.stop_ws d

/-- From `GethAdmin.stop_rpc` (geth.py line 270). -/
def stop_rpc (d : Dispatcher E) : CallResult E :=
  UtilsAdmin.stop_rpc d

/-- From `GethAdmin.addPeer` (geth.py line 272, deprecated section). -/
def addPeer (d : Dispatcher E) (url : Value) : CallResult E :=
  UtilsAdmin.addPeer d url

/-- From `GethAdmin.datadir` (geth.py line 273). -/
def datadir (d : Dispatcher E) : CallResult E :=
  UtilsAdmin.datadir d

/-- From `GethAdmin.nodeInfo` (geth.py line 274). -/
def nodeInfo (d : Dispatcher E) : CallResult E :=
  UtilsAdmin.nodeInfo d

/-- From `GethAdmin.peers` (geth.py line 275). -/
def peers (d : Dispatcher E) : CallResult E :=
  UtilsAdmin.peers d

/-- From `GethAdmin.startRPC` (geth.py line 276). -/
def startRPC (d : Dispatcher E) (args : List Value) : CallResult E :=
  UtilsAdmin.startRPC d args

/-- From `GethAdmin.startWS` (geth.py line 277). -/
def startWS (d : Dispatcher E) (args : List Value) : CallResult E :=
  UtilsAdmin.startWS d args

/-- From `GethAdmin.stopRPC` (geth.py line 278). -/
def stopRPC (d : Dispatcher E) : CallResult E :=
  UtilsAdmin.stopRPC d

/-- From `GethAdmin.stopWS` (geth.py line 279). -/
def stopWS (d : Dispatcher E) : CallResult E :=
  UtilsAdmin.stopWS d

end GethAdmin

namespace GethMiner

/-- From `GethMiner.make_dag` (geth.py line 286): the class attribute binds
the imported method object directly. -/
def make_dag (d : Dispatcher E) (number : Value) : CallResult E :=
  UtilsMiner.make_dag d number

/-- From `GethMiner.set_extra` (geth.py line 287). -/
def set_extra (d : Dispatcher E) (extra : Value) : CallResult E :=
  UtilsMiner.set_extra d extra

/-- From `GethMiner.set_etherbase` (geth.py line 288). -/
def set_etherbase (d : Dispatcher E) (etherbase : Value) : CallResult E :=
  UtilsMiner.set_etherbase d etherbase

/-- From `GethMiner.set_gas_price` (geth.py line 289). -/
def set_gas_price (d : Dispatcher E) (gas_price : Value) : CallResult E :=
  UtilsMiner.set_gas_price d gas_price

/-- From `GethMiner.start` (geth.py line 290). -/
def start (d : Dispatcher E) (args : List Value) : CallResult E :=
  UtilsMiner.start d args

/-- From `GethMiner.stop` (geth.py line 291). -/
def stop (d : Dispatcher E) : CallResult E :=
  UtilsMiner.stop d

/-- From `GethMiner.start_auto_dag` (geth.py line 292). -/
def start_auto_dag (d : Dispatcher E) : CallResult E :=
  UtilsMiner.start_auto_dag d

/-- From `GethMiner.stop_auto_dag` (geth.py line 293). -/
def stop_auto_dag (d : Dispatcher E) : CallResult E :=
  UtilsMiner.stop_auto_dag d

/-- From `GethMiner.makeDag` (geth.py line 295, deprecated section). -/
def makeDag (d : Dispatcher E) (number : Value) : CallResult E :=
  UtilsMiner.makeDag d number

/-- From `GethMiner.setExtra` (geth.py line 296). -/
def setExtra (d : Dispatcher E) (extra : Value) : CallResult E :=
  UtilsMiner.setExtra d extra

/-- From `GethMiner.setEtherbase` (geth.py line 297). -/
def setEtherbase (d : Dispatcher E) (etherbase : Value) : CallResult E :=
  UtilsMiner.setEtherbase d etherbase

/-- From `GethMiner.setGasPrice` (geth.py line 298). -/
def setGasPrice (d : Dispatcher E) (gas_price : Value) : CallResult E :=
  UtilsMiner.setGasPrice d gas_price

/-- From `GethMiner.startAutoDag` (geth.py line 299). -/
def startAutoDag (d : Dispatcher E) : CallResult E :=
  UtilsMiner.startAutoDag d

/-- From `GethMiner.stopAutoDag` (geth.py line 300). -/
def stopAutoDag (d : Dispatcher E) : CallResult E :=
  UtilsMiner.stopAutoDag d

end GethMiner

/-- One parameter of a Python method signature (excluding `self`):
its name and whether it carries a default value. -/
structure PyParam where
  name : String
  optional : Bool
deriving DecidableEq, Repr

/-- One exposed operation of a namespace class as declared in `web3/geth.py`:
its name, its parameter list when the signature is written in the file
(`none` for a bare class-attribute binding whose signature lives in the
imported method object), and whether it is declared `async`. -/
structure PyMethod where
  name : String
  params : Option (List PyParam)
  isAsync : Bool
deriving DecidableEq, Repr

/-- One namespace class declared in `web3/geth.py` with its exposed (public,
non-underscore) operations. -/
structure PyClass where
  name : String
  methods : List PyMethod
deriving DecidableEq, Repr

/-- A required parameter (no default). -/
def rq (n : String) : PyParam := ⟨n, false⟩

/-- A parameter with a default value. -/
def dft (n : String) : PyParam := ⟨n, true⟩

/-- The exposed methods of `GethPersonal` (geth.py lines 113-180), in source
order.  `BaseGethPersonal`'s underscore-prefixed attributes are private
bindings, not exposed operations. -/
def gethPersonalMethods : List PyMethod :=
  [⟨"ec_recover", some [rq "message", rq "signature"], false⟩,
   ⟨"import_raw_key", some [rq "private_key", rq "passphrase"], false⟩,
   ⟨"list_accounts", some [], false⟩,
   ⟨"list_wallets", some [], false⟩,
   ⟨"lock_account", some [rq "account"], false⟩,
   ⟨"new_account", some [rq "passphrase"], false⟩,
   ⟨"send_transaction", some [rq "transaction", rq "passphrase"], false⟩,
   ⟨"sign", some [rq "message", rq "account", rq "password"], false⟩,
   ⟨"sign_typed_data", some [rq "message", rq "account", rq "password"], false⟩,
   ⟨"unlock_account",
     some [rq "account", rq "passphrase", dft "duration"], false⟩,
   ⟨"ecRecover", some [rq "message", rq "signature"], false⟩,
   ⟨"importRawKey", some [rq "private_key", rq "passphrase"], false⟩,
   ⟨"listAccounts", some [], false⟩,
   ⟨"lockAccount", some [rq "account"], false⟩,
   ⟨"newAccount", some [rq "passphrase"], false⟩,
   ⟨"sendTransaction", some [rq "transaction", rq "passphrase"], false⟩,
   ⟨"signTypedData",
     some [rq "message", rq "account", dft "password"], false⟩,
   ⟨"unlockAccount",
     some [rq "account", rq "passphrase", dft "duration"], false⟩]

/-- The exposed methods of `AsyncGethPersonal` (geth.py lines 183-223): the
ten snake_case operations only, all `async`; the class defines no camelCase
methods. -/
def asyncGethPersonalMethods : List PyMethod :=
  [⟨"ec_recover", some [rq "message", rq "signature"], true⟩,
   ⟨"import_raw_key", some [rq "private_key", rq "passphrase"], true⟩,
   ⟨"list_accounts", some [], true⟩,
   ⟨"list_wallets", some [], true⟩,
   ⟨"lock_account", some [rq "account"], true⟩,
   ⟨"new_account", some [rq "passphrase"], true⟩,
   ⟨"send_transaction", some [rq "transaction", rq "passphrase"], true⟩,
   ⟨"sign", some [rq "message", rq "account", rq "password"], true⟩,
   ⟨"sign_typed_data", some [rq "message", rq "account", rq "password"], true⟩,
   ⟨"unlock_account",
     some [rq "account", rq "passphrase", dft "duration"], true⟩]

/-- The exposed methods of `GethTxPool` (geth.py lines 235-245). -/
def gethTxPoolMethods : List PyMethod :=
  [⟨"content", some [], false⟩,
   ⟨"inspect", some [], false⟩,
   ⟨"status", some [], false⟩]

/-- The exposed methods of `AsyncGethTxPool` (geth.py lines 248-258). -/
def asyncGethTxPoolMethods : List PyMethod :=
  [⟨"content", some [], true⟩,
   ⟨"inspect", some [], true⟩,
   ⟨"status", some [], true⟩]

/-- The exposed operations of `GethAdmin` (geth.py lines 261-279): bare
class-attribute bindings of the imported method objects, so no signature is
written in the file; all synchronous. -/
def gethAdminMethods : List PyMethod :=
  [⟨"add_peer", none, false⟩,
   ⟨"node_info", none, false⟩,
   ⟨"start_rpc", none, false⟩,
   ⟨"start_ws", none, false⟩,
   ⟨"stop_ws", none, false⟩,
   ⟨"stop_rpc", none, false⟩,
   ⟨"addPeer", none, false⟩,
   ⟨"datadir", none, false⟩,
   ⟨"nodeInfo", none, false⟩,
   ⟨"peers", none, false⟩,
   ⟨"startRPC", none, false⟩,
   ⟨"startWS", none, false⟩,
   ⟨"stopRPC", none, false⟩,
   ⟨"stopWS", none, false⟩]

/-- The exposed operations of `GethMiner` (geth.py lines 282-300): bare
class-attribute bindings; all synchronous. -/
def gethMinerMethods : List PyMethod :=
  [⟨"make_dag", none, false⟩,
   ⟨"set_extra", none, false⟩,
   ⟨"set_etherbase", none, false⟩,
   ⟨"set_gas_price", none, false⟩,
   ⟨"start", none, false⟩,
   ⟨"stop", none, false⟩,
   ⟨"start_auto_dag", none, false⟩,
   ⟨"stop_auto_dag", none, false⟩,
   ⟨"makeDag", none, false⟩,
   ⟨"setExtra", none, false⟩,
   ⟨"setEtherbase", none, false⟩,
   ⟨"setGasPrice", none, false⟩,
   ⟨"startAutoDag", none, false⟩,
   ⟨"stopAutoDag", none, false⟩]

/-- Every namespace class declared in `web3/geth.py` with exposed operations.
`BaseGethPersonal` and `BaseTxPool` carry only underscore-prefixed private
bindings, and the aggregate `Geth` class carries only attribute annotations
(see `gethAttributes`), so they contribute no entries here. -/
def gethClasses : List PyClass :=
  [⟨"GethPersonal", gethPersonalMethods⟩,
   ⟨"AsyncGethPersonal", asyncGethPersonalMethods⟩,
   ⟨"GethTxPool", gethTxPoolMethods⟩,
   ⟨"AsyncGethTxPool", asyncGethTxPoolMethods⟩,
   ⟨"GethAdmin", gethAdminMethods⟩,
   ⟨"GethMiner", gethMinerMethods⟩]

/-- The attribute annotations of the aggregate `Geth` class (geth.py lines
303-305): attribute name paired with the annotated namespace class. -/
def gethAttributes : List (String × String) :=
  [("personal", "GethPersonal"), ("admin", "GethAdmin")]

/-- Split a character list at underscores, accumulating the current segment
in reverse. -/
def camelSegs : List Char → List Char → List (List Char)
  | [], acc => [acc.reverse]
  | c :: cs, acc =>
      if c = '_' then acc.reverse :: camelSegs cs [] else camelSegs cs (c :: acc)

/-- Capitalize one snake_case segment for camelCase, keeping the go-ethereum
convention that the acronym segments `rpc` and `ws` are fully uppercased. -/
def capSeg (s : List Char) : List Char :=
  if s = ['r', 'p', 'c'] then ['R', 'P', 'C']
  else if s = ['w', 's'] then ['W', 'S']
  else
    match s with
    | [] => []
    | c :: cs => c.toUpper :: cs

/-- The camelCase name corresponding to a snake_case operation name: the
first underscore-separated segment unchanged, each later segment capitalized
(`rpc`/`ws` uppercased); a single-word name maps to itself. -/
def camelize (s : String) : String :=
  match camelSegs s.data [] with
  | [] => s
  | h :: t => ⟨(h :: t.map capSeg).flatten⟩

/-- Whether a method whose signature is written in the file can be invoked
with exactly `k` positional arguments: at most `k` parameters are declared
and every parameter beyond the first `k` has a default. -/
def acceptsPositional (m : PyMethod) (k : Nat) : Bool :=
  match m.params with
  | none => false
  | some ps => k ≤ ps.length && (ps.drop k).all fun q => q.optional

/-- C1: every exposed operation of every namespace class (`GethPersonal`,
`AsyncGethPersonal`, `GethAdmin`, `GethMiner`, `GethTxPool`,
`AsyncGethTxPool`), called with arguments `args`, issues exactly one call to
the underlying dispatcher, with the method name equal to the documented
JSON-RPC method string for the operation and with parameters equal to `args`
in the same order, untransformed; the outcome is exactly the dispatcher's
response to that one call.  Operations with a defaulted parameter are taken
here with the argument supplied (`some v`); the omitted-argument case is the
subject of `unlock_account_null_duration`. -/
theorem dispatch_single_call_exact (E : Type) (d : Dispatcher E) :
    (∀ m s, GethPersonal.ec_recover d m s =
      ⟨[⟨"personal_ecRecover", [m, s]⟩], d.respond ⟨"personal_ecRecover", [m, s]⟩⟩)
  ∧ (∀ k p, GethPersonal.import_raw_key d k p =
      ⟨[⟨"personal_importRawKey", [k, p]⟩], d.respond ⟨"personal_importRawKey", [k, p]⟩⟩)
  ∧ (GethPersonal.list_accounts d =
      ⟨[⟨"personal_listAccounts", []⟩], d.respond ⟨"personal_listAccounts", []⟩⟩)
  ∧ (GethPersonal.list_wallets d =
      ⟨[⟨"personal_listWallets", []⟩], d.respond ⟨"personal_listWallets", []⟩⟩)
  ∧ (∀ a, GethPersonal.lock_account d a =
      ⟨[⟨"personal_lockAccount", [a]⟩], d.respond ⟨"personal_lockAccount", [a]⟩⟩)
  ∧ (∀ p, GethPersonal.new_account d p =
      ⟨[⟨"personal_newAccount", [p]⟩], d.respond ⟨"personal_newAccount", [p]⟩⟩)
  ∧ (∀ t p, GethPersonal.send_transaction d t p =
      ⟨[⟨"personal_sendTransaction", [t, p]⟩], d.respond ⟨"personal_sendTransaction", [t, p]⟩⟩)
  ∧ (∀ m a p, GethPersonal.sign d m a p =
      ⟨[⟨"personal_sign", [m, a, p]⟩], d.respond ⟨"personal_sign", [m, a, p]⟩⟩)
  ∧ (∀ m a p, GethPersonal.sign_typed_data d m a p =
      ⟨[⟨"personal_signTypedData", [m, a, p]⟩], d.respond ⟨"personal_signTypedData", [m, a, p]⟩⟩)
  ∧ (∀ a p v, GethPersonal.unlock_account d a p (some v) =
      ⟨[⟨"personal_unlockAccount", [a, p, v]⟩], d.respond ⟨"personal_unlockAccount", [a, p, v]⟩⟩)
  ∧ (∀ m s, GethPersonal.ecRecover d m s =
      ⟨[⟨"personal_ecRecover", [m, s]⟩], d.respond ⟨"personal_ecRecover", [m, s]⟩⟩)
  ∧ (∀ k p, GethPersonal.importRawKey d k p =
      ⟨[⟨"personal_importRawKey", [k, p]⟩], d.respond ⟨"personal_importRawKey", [k, p]⟩⟩)
  ∧ (GethPersonal.listAccounts d =
      ⟨[⟨"personal_listAccounts", []⟩], d.respond ⟨"personal_listAccounts", []⟩⟩)
  ∧ (∀ a, GethPersonal.lockAccount d a =
      ⟨[⟨"personal_lockAccount", [a]⟩], d.respond ⟨"personal_lockAccount", [a]⟩⟩)
  ∧ (∀ p, GethPersonal.newAccount d p =
      ⟨[⟨"personal_newAccount", [p]⟩], d.respond ⟨"personal_newAccount", [p]⟩⟩)
  ∧ (∀ t p, GethPersonal.sendTransaction d t p =
      ⟨[⟨"personal_sendTransaction", [t, p]⟩], d.respond ⟨"personal_sendTransaction", [t, p]⟩⟩)
  ∧ (∀ m a p, GethPersonal.signTypedData d m a (some p) =
      ⟨[⟨"personal_signTypedData", [m, a, p]⟩], d.respond ⟨"personal_signTypedData", [m, a, p]⟩⟩)
  ∧ (∀ a p v, GethPersonal.unlockAccount d a p (some v) =
      ⟨[⟨"personal_unlockAccount", [a, p, v]⟩], d.respond ⟨"personal_unlockAccount", [a, p, v]⟩⟩)
  ∧ (∀ m s, AsyncGethPersonal.ec_recover d m s =
      ⟨[⟨"personal_ecRecover", [m, s]⟩], d.respond ⟨"personal_ecRecover", [m, s]⟩⟩)
  ∧ (∀ k p, AsyncGethPersonal.import_raw_key d k p =
      ⟨[⟨"personal_importRawKey", [k, p]⟩], d.respond ⟨"personal_importRawKey", [k, p]⟩⟩)
  ∧ (AsyncGethPersonal.list_accounts d =
      ⟨[⟨"personal_listAccounts", []⟩], d.respond ⟨"personal_listAccounts", []⟩⟩)
  ∧ (AsyncGethPersonal.list_wallets d =
      ⟨[⟨"personal_listWallets", []⟩], d.respond ⟨"personal_listWallets", []⟩⟩)
  ∧ (∀ a, AsyncGethPersonal.lock_account d a =
      ⟨[⟨"personal_lockAccount", [a]⟩], d.respond ⟨"personal_lockAccount", [a]⟩⟩)
  ∧ (∀ p, AsyncGethPersonal.new_account d p =
      ⟨[⟨"personal_newAccount", [p]⟩], d.respond ⟨"personal_newAccount", [p]⟩⟩)
  ∧ (∀ t p, AsyncGethPersonal.send_transaction d t p =
      ⟨[⟨"personal_sendTransaction", [t, p]⟩], d.respond ⟨"personal_sendTransaction", [t, p]⟩⟩)
  ∧ (∀ m a p, AsyncGethPersonal.sign d m a p =
      ⟨[⟨"personal_sign", [m, a, p]⟩], d.respond ⟨"personal_sign", [m, a, p]⟩⟩)
  ∧ (∀ m a p, AsyncGethPersonal.sign_typed_data d m a p =
      ⟨[⟨"personal_signTypedData", [m, a, p]⟩], d.respond ⟨"personal_signTypedData", [m, a, p]⟩⟩)
  ∧ (∀ a p v, AsyncGethPersonal.unlock_account d a p (some v) =
      ⟨[⟨"personal_unlockAccount", [a, p, v]⟩], d.respond ⟨"personal_unlockAccount", [a, p, v]⟩⟩)
  ∧ (GethTxPool.content d =
      ⟨[⟨"txpool_content", []⟩], d.respond ⟨"txpool_content", []⟩⟩)
  ∧ (GethTxPool.inspect d =
      ⟨[⟨"txpool_inspect", []⟩], d.respond ⟨"txpool_inspect", []⟩⟩)
  ∧ (GethTxPool.status d =
      ⟨[⟨"txpool_status", []⟩], d.respond ⟨"txpool_status", []⟩⟩)
  ∧ (AsyncGethTxPool.content d =
      ⟨[⟨"txpool_content", []⟩], d.respond ⟨"txpool_content", []⟩⟩)
  ∧ (AsyncGethTxPool.inspect d =
      ⟨[⟨"txpool_inspect", []⟩], d.respond ⟨"txpool_inspect", []⟩⟩)
  ∧ (AsyncGethTxPool.status d =
      ⟨[⟨"txpool_status", []⟩], d.respond ⟨"txpool_status", []⟩⟩)
  ∧ (∀ u, GethAdmin.add_peer d u =
      ⟨[⟨"admin_addPeer", [u]⟩], d.respond ⟨"admin_addPeer", [u]⟩⟩)
  ∧ (GethAdmin.node_info d =
      ⟨[⟨"admin_nodeInfo", []⟩], d.respond ⟨"admin_nodeInfo", []⟩⟩)
  ∧ (∀ xs, GethAdmin.start_rpc d xs =
      ⟨[⟨"admin_startRPC", xs⟩], d.respond ⟨"admin_startRPC", xs⟩⟩)
  ∧ (∀ xs, GethAdmin.start_ws d xs =
      ⟨[⟨"admin_startWS", xs⟩], d.respond ⟨"admin_startWS", xs⟩⟩)
  ∧ (GethAdmin.stop_ws d =
      ⟨[⟨"admin_stopWS", []⟩], d.respond ⟨"admin_stopWS", []⟩⟩)
  ∧ (GethAdmin.stop_rpc d =
      ⟨[⟨"admin_stopRPC", []⟩], d.respond ⟨"admin_stopRPC", []⟩⟩)
  ∧ (∀ u, GethAdmin.addPeer d u =
      ⟨[⟨"admin_addPeer", [u]⟩], d.respond ⟨"admin_addPeer", [u]⟩⟩)
  ∧ (GethAdmin.datadir d =
      ⟨[⟨"admin_datadir", []⟩], d.respond ⟨"admin_datadir", []⟩⟩)
  ∧ (GethAdmin.nodeInfo d =
      ⟨[⟨"admin_nodeInfo", []⟩], d.respond ⟨"admin_nodeInfo", []⟩⟩)
  ∧ (GethAdmin.peers d =
      ⟨[⟨"admin_peers", []⟩], d.respond ⟨"admin_peers", []⟩⟩)
  ∧ (∀ xs, GethAdmin.startRPC d xs =
      ⟨[⟨"admin_startRPC", xs⟩], d.respond ⟨"admin_startRPC", xs⟩⟩)
  ∧ (∀ xs, GethAdmin.startWS d xs =
      ⟨[⟨"admin_startWS", xs⟩], d.respond ⟨"admin_startWS", xs⟩⟩)
  ∧ (GethAdmin.stopRPC d =
      ⟨[⟨"admin_stopRPC", []⟩], d.respond ⟨"admin_stopRPC", []⟩⟩)
  ∧ (GethAdmin.stopWS d =
      ⟨[⟨"admin_stopWS", []⟩], d.respond ⟨"admin_stopWS", []⟩⟩)
  ∧ (∀ n, GethMiner.make_dag d n =
      ⟨[⟨"miner_makeDag", [n]⟩], d.respond ⟨"miner_makeDag", [n]⟩⟩)
  ∧ (∀ x, GethMiner.set_extra d x =
      ⟨[⟨"miner_setExtra", [x]⟩], d.respond ⟨"miner_setExtra", [x]⟩⟩)
  ∧ (∀ e, GethMiner.set_etherbase d e =
      ⟨[⟨"miner_setEtherbase", [e]⟩], d.respond ⟨"miner_setEtherbase", [e]⟩⟩)
  ∧ (∀ g, GethMiner.set_gas_price d g =
      ⟨[⟨"miner_setGasPrice", [g]⟩], d.respond ⟨"miner_setGasPrice", [g]⟩⟩)
  ∧ (∀ xs, GethMiner.start d xs =
      ⟨[⟨"miner_start", xs⟩], d.respond ⟨"miner_start", xs⟩⟩)
  ∧ (GethMiner.stop d =
      ⟨[⟨"miner_stop", []⟩], d.respond ⟨"miner_stop", []⟩⟩)
  ∧ (GethMiner.start_auto_dag d =
      ⟨[⟨"miner_startAutoDag", []⟩], d.respond ⟨"miner_startAutoDag", []⟩⟩)
  ∧ (GethMiner.stop_auto_dag d =
      ⟨[⟨"miner_stopAutoDag", []⟩], d.respond ⟨"miner_stopAutoDag", []⟩⟩)
  ∧ (∀ n, GethMiner.makeDag d n =
      ⟨[⟨"miner_makeDag", [n]⟩], d.respond ⟨"miner_makeDag", [n]⟩⟩)
  ∧ (∀ x, GethMiner.setExtra d x =
      ⟨[⟨"miner_setExtra", [x]⟩], d.respond ⟨"miner_setExtra", [x]⟩⟩)
  ∧ (∀ e, GethMiner.setEtherbase d e =
      ⟨[⟨"miner_setEtherbase", [e]⟩], d.respond ⟨"miner_setEtherbase", [e]⟩⟩)
  ∧ (∀ g, GethMiner.setGasPrice d g =
      ⟨[⟨"miner_setGasPrice", [g]⟩], d.respond ⟨"miner_setGasPrice", [g]⟩⟩)
  ∧ (GethMiner.startAutoDag d =
      ⟨[⟨"miner_startAutoDag", []⟩], d.respond ⟨"miner_startAutoDag", []⟩⟩)
  ∧ (GethMiner.stopAutoDag d =
      ⟨[⟨"miner_stopAutoDag", []⟩], d.respond ⟨"miner_stopAutoDag", []⟩⟩) := by
  repeat' apply And.intro
  all_goals intros
  all_goals rfl

/-- C2: for every deprecated camelCase alias paired with a canonical
snake_case operation in the same namespace class, calling the alias and the
canonical operation with the same arguments yields the identical `CallResult`:
the same single dispatcher call (same method string, same ordered parameters)
and, for the same dispatcher response, the identical outcome, so success and
failure semantics agree exactly.  For `signTypedData` the shared argument list
supplies the password; for `unlockAccount` the optional duration is
quantified over both the supplied and the omitted form. -/
theorem camel_alias_dispatch_equiv (E : Type) (d : Dispatcher E) :
    (∀ m s, GethPersonal.ecRecover d m s = GethPersonal.ec_recover d m s)
  ∧ (∀ k p, GethPersonal.importRawKey d k p = GethPersonal.import_raw_key d k p)
  ∧ (GethPersonal.listAccounts d = GethPersonal.list_accounts d)
  ∧ (∀ a, GethPersonal.lockAccount d a = GethPersonal.lock_account d a)
  ∧ (∀ p, GethPersonal.newAccount d p = GethPersonal.new_account d p)
  ∧ (∀ t p, GethPersonal.sendTransaction d t p = GethPersonal.send_transaction d t p)
  ∧ (∀ m a p, GethPersonal.signTypedData d m a (some p) = GethPersonal.sign_typed_data d m a p)
  ∧ (∀ a p v, GethPersonal.unlockAccount d a p v = GethPersonal.unlock_account d a p v)
  ∧ (∀ u, GethAdmin.addPeer d u = GethAdmin.add_peer d u)
  ∧ (GethAdmin.nodeInfo d = GethAdmin.node_info d)
  ∧ (∀ xs, GethAdmin.startRPC d xs = GethAdmin.start_rpc d xs)
  ∧ (∀ xs, GethAdmin.startWS d xs = GethAdmin.start_ws d xs)
  ∧ (GethAdmin.stopRPC d = GethAdmin.stop_rpc d)
  ∧ (GethAdmin.stopWS d = GethAdmin.stop_ws d)
  ∧ (∀ n, GethMiner.makeDag d n = GethMiner.make_dag d n)
  ∧ (∀ x, GethMiner.setExtra d x = GethMiner.set_extra d x)
  ∧ (∀ e, GethMiner.setEtherbase d e = GethMiner.set_etherbase d e)
  ∧ (∀ g, GethMiner.setGasPrice d g = GethMiner.set_gas_price d g)
  ∧ (GethMiner.startAutoDag d = GethMiner.start_auto_dag d)
  ∧ (GethMiner.stopAutoDag d = GethMiner.stop_auto_dag d) := by
  repeat' apply And.intro
  all_goals intros
  all_goals rfl

/-- C3 counterexample: the claim "every namespace exposes a camelCase alias
for each of its snake_case operations, in particular for every snake_case
operation of GethPersonal and AsyncGethPersonal" fails at two concrete
inputs: `AsyncGethPersonal` exposes the snake_case operation `ec_recover`
but no method named `ecRecover` (it defines no camelCase methods at all),
and `GethPersonal` exposes `list_wallets` but no method named
`listWallets`. -/
theorem camel_alias_universal_cex :
    ((asyncGethPersonalMethods.any fun m => m.name == "ec_recover") = true)
  ∧ camelize "ec_recover" = "ecRecover"
  ∧ ((asyncGethPersonalMethods.any fun m => m.name == "ecRecover") = false)
  ∧ ((gethPersonalMethods.any fun m => m.name == "list_wallets") = true)
  ∧ camelize "list_wallets" = "listWallets"
  ∧ ((gethPersonalMethods.any fun m => m.name == "listWallets") = false) := by
  decide

/-- C3 amended: every namespace class other than `AsyncGethPersonal` exposes,
for each of its operations, a method of the same class whose name is the
corresponding camelCase form (single-word names coincide with their camelCase
form), with the sole exception of `GethPersonal.list_wallets`, which has no
`listWallets` alias; `AsyncGethPersonal` exposes no camelCase aliases. -/
theorem camel_alias_partial :
    ∀ c ∈ gethClasses, c.name ≠ "AsyncGethPersonal" →
      ∀ m ∈ c.methods, ¬(c.name = "GethPersonal" ∧ m.name = "list_wallets") →
        (c.methods.any fun m2 => m2.name == camelize m.name) = true := by
  decide

/-- Witness for `camel_alias_partial`: instantiated at the class
`GethPersonal` and its operation `ec_recover`. -/
theorem camel_alias_partial_witness :
    (gethPersonalMethods.any fun m2 => m2.name == camelize "ec_recover") = true :=
  camel_alias_partial ⟨"GethPersonal", gethPersonalMethods⟩ (by decide)
    (by decide) ⟨"ec_recover", some [rq "message", rq "signature"], false⟩
    (by decide) (by decide)

/-- C4: for every exposed operation, the outcome is exactly the dispatcher's
response to the single issued call — the layer never catches, wraps, retries,
suppresses, or translates a dispatcher error and never raises one of its own;
in particular, if the dispatcher answers method `admin_addPeer` with error
`e`, then `add_peer url` fails with exactly that `e`. -/
theorem error_passthrough (E : Type) (d : Dispatcher E) :
    (∀ u e, d.respond ⟨"admin_addPeer", [u]⟩ = Except.error e →
      (GethAdmin.add_peer d u).result = Except.error e)
  ∧ (∀ m s, (GethPersonal.ec_recover d m s).result = d.respond ⟨"personal_ecRecover", [m, s]⟩)
  ∧ (∀ k p, (GethPersonal.import_raw_key d k p).result = d.respond ⟨"personal_importRawKey", [k, p]⟩)
  ∧ ((GethPersonal.list_accounts d).result = d.respond ⟨"personal_listAccounts", []⟩)
  ∧ ((GethPersonal.list_wallets d).result = d.respond ⟨"personal_listWallets", []⟩)
  ∧ (∀ a, (GethPersonal.lock_account d a).result = d.respond ⟨"personal_lockAccount", [a]⟩)
  ∧ (∀ p, (GethPersonal.new_account d p).result = d.respond ⟨"personal_newAccount", [p]⟩)
  ∧ (∀ t p, (GethPersonal.send_transaction d t p).result = d.respond ⟨"personal_sendTransaction", [t, p]⟩)
  ∧ (∀ m a p, (GethPersonal.sign d m a p).result = d.respond ⟨"personal_sign", [m, a, p]⟩)
  ∧ (∀ m a p, (GethPersonal.sign_typed_data d m a p).result = d.respond ⟨"personal_signTypedData", [m, a, p]⟩)
  ∧ (∀ a p v, (GethPersonal.unlock_account d a p (some v)).result = d.respond ⟨"personal_unlockAccount", [a, p, v]⟩)
  ∧ (∀ m s, (GethPersonal.ecRecover d m s).result = d.respond ⟨"personal_ecRecover", [m, s]⟩)
  ∧ (∀ k p, (GethPersonal.importRawKey d k p).result = d.respond ⟨"personal_importRawKey", [k, p]⟩)
  ∧ ((GethPersonal.listAccounts d).result = d.respond ⟨"personal_listAccounts", []⟩)
  ∧ (∀ a, (GethPersonal.lockAccount d a).result = d.respond ⟨"personal_lockAccount", [a]⟩)
  ∧ (∀ p, (GethPersonal.newAccount d p).result = d.respond ⟨"personal_newAccount", [p]⟩)
  ∧ (∀ t p, (GethPersonal.sendTransaction d t p).result = d.respond ⟨"personal_sendTransaction", [t, p]⟩)
  ∧ (∀ m a p, (GethPersonal.signTypedData d m a (some p)).result = d.respond ⟨"personal_signTypedData", [m, a, p]⟩)
  ∧ (∀ a p v, (GethPersonal.unlockAccount d a p (some v)).result = d.respond ⟨"personal_unlockAccount", [a, p, v]⟩)
  ∧ (∀ m s, (AsyncGethPersonal.ec_recover d m s).result = d.respond ⟨"personal_ecRecover", [m, s]⟩)
  ∧ (∀ k p, (AsyncGethPersonal.import_raw_key d k p).result = d.respond ⟨"personal_importRawKey", [k, p]⟩)
  ∧ ((AsyncGethPersonal.list_accounts d).result = d.respond ⟨"personal_listAccounts", []⟩)
  ∧ ((AsyncGethPersonal.list_wallets d).result = d.respond ⟨"personal_listWallets", []⟩)
  ∧ (∀ a, (AsyncGethPersonal.lock_account d a).result = d.respond ⟨"personal_lockAccount", [a]⟩)
  ∧ (∀ p, (AsyncGethPersonal.new_account d p).result = d.respond ⟨"personal_newAccount", [p]⟩)
  ∧ (∀ t p, (AsyncGethPersonal.send_transaction d t p).result = d.respond ⟨"personal_sendTransaction", [t, p]⟩)
  ∧ (∀ m a p, (AsyncGethPersonal.sign d m a p).result = d.respond ⟨"personal_sign", [m, a, p]⟩)
  ∧ (∀ m a p, (AsyncGethPersonal.sign_typed_data d m a p).result = d.respond ⟨"personal_signTypedData", [m, a, p]⟩)
  ∧ (∀ a p v, (AsyncGethPersonal.unlock_account d a p (some v)).result = d.respond ⟨"personal_unlockAccount", [a, p, v]⟩)
  ∧ ((GethTxPool.content d).result = d.respond ⟨"txpool_content", []⟩)
  ∧ ((GethTxPool.inspect d).result = d.respond ⟨"txpool_inspect", []⟩)
  ∧ ((GethTxPool.status d).result = d.respond ⟨"txpool_status", []⟩)
  ∧ ((AsyncGethTxPool.content d).result = d.respond ⟨"txpool_content", []⟩)
  ∧ ((AsyncGethTxPool.inspect d).result = d.respond ⟨"txpool_inspect", []⟩)
  ∧ ((AsyncGethTxPool.status d).result = d.respond ⟨"txpool_status", []⟩)
  ∧ (∀ u, (GethAdmin.add_peer d u).result = d.respond ⟨"admin_addPeer", [u]⟩)
  ∧ ((GethAdmin.node_info d).result = d.respond ⟨"admin_nodeInfo", []⟩)
  ∧ (∀ xs, (GethAdmin.start_rpc d xs).result = d.respond ⟨"admin_startRPC", xs⟩)
  ∧ (∀ xs, (GethAdmin.start_ws d xs).result = d.respond ⟨"admin_startWS", xs⟩)
  ∧ ((GethAdmin.stop_ws d).result = d.respond ⟨"admin_stopWS", []⟩)
  ∧ ((GethAdmin.stop_rpc d).result = d.respond ⟨"admin_stopRPC", []⟩)
  ∧ (∀ u, (GethAdmin.addPeer d u).result = d.respond ⟨"admin_addPeer", [u]⟩)
  ∧ ((GethAdmin.datadir d).result = d.respond ⟨"admin_datadir", []⟩)
  ∧ ((GethAdmin.nodeInfo d).result = d.respond ⟨"admin_nodeInfo", []⟩)
  ∧ ((GethAdmin.peers d).result = d.respond ⟨"admin_peers", []⟩)
  ∧ (∀ xs, (GethAdmin.startRPC d xs).result = d.respond ⟨"admin_startRPC", xs⟩)
  ∧ (∀ xs, (GethAdmin.startWS d xs).result = d.respond ⟨"admin_startWS", xs⟩)
  ∧ ((GethAdmin.stopRPC d).result = d.respond ⟨"admin_stopRPC", []⟩)
  ∧ ((GethAdmin.stopWS d).result = d.respond ⟨"admin_stopWS", []⟩)
  ∧ (∀ n, (GethMiner.make_dag d n).result = d.respond ⟨"miner_makeDag", [n]⟩)
  ∧ (∀ x, (GethMiner.set_extra d x).result = d.respond ⟨"miner_setExtra", [x]⟩)
  ∧ (∀ e, (GethMiner.set_etherbase d e).result = d.respond ⟨"miner_setEtherbase", [e]⟩)
  ∧ (∀ g, (GethMiner.set_gas_price d g).result = d.respond ⟨"miner_setGasPrice", [g]⟩)
  ∧ (∀ xs, (GethMiner.start d xs).result = d.respond ⟨"miner_start", xs⟩)
  ∧ ((GethMiner.stop d).result = d.respond ⟨"miner_stop", []⟩)
  ∧ ((GethMiner.start_auto_dag d).result = d.respond ⟨"miner_startAutoDag", []⟩)
  ∧ ((GethMiner.stop_auto_dag d).result = d.respond ⟨"miner_stopAutoDag", []⟩)
  ∧ (∀ n, (GethMiner.makeDag d n).result = d.respond ⟨"miner_makeDag", [n]⟩)
  ∧ (∀ x, (GethMiner.setExtra d x).result = d.respond ⟨"miner_setExtra", [x]⟩)
  ∧ (∀ e, (GethMiner.setEtherbase d e).result = d.respond ⟨"miner_setEtherbase", [e]⟩)
  ∧ (∀ g, (GethMiner.setGasPrice d g).result = d.respond ⟨"miner_setGasPrice", [g]⟩)
  ∧ ((GethMiner.startAutoDag d).result = d.respond ⟨"miner_startAutoDag", []⟩)
  ∧ ((GethMiner.stopAutoDag d).result = d.respond ⟨"miner_stopAutoDag", []⟩) := by
  repeat' apply And.intro
  all_goals intros
  all_goals first
  | rfl
  | assumption

/-- A dispatcher over error type `Nat` that fails every call with error `7`,
used to witness error propagation on a concrete input. -/
def errDispatcher : Dispatcher Nat :=
  ⟨fun _ => Except.error 7⟩

/-- Witness for `error_passthrough`: under `errDispatcher`, which answers
`admin_addPeer` with error `7`, `add_peer` fails with exactly error `7`. -/
theorem error_passthrough_witness :
    (GethAdmin.add_peer errDispatcher (Value.str "enode://pubkey@ip:port")).result
      = Except.error 7 :=
  (error_passthrough Nat errDispatcher).1 (Value.str "enode://pubkey@ip:port") 7 rfl

/-- C5: every operation that exists in both a sync and an async namespace
class (all Personal operations and all TxPool operations) produces, for the
same dispatcher, a sync return value equal to the async awaited resolution
value (awaited resolution is modelled as the returned `CallResult`); in
particular both the sync and the awaited async `list_accounts` resolve to
exactly the dispatcher's response for `personal_listAccounts`. -/
theorem sync_async_agree (E : Type) (d : Dispatcher E) :
    (∀ m s, GethPersonal.ec_recover d m s = AsyncGethPersonal.ec_recover d m s)
  ∧ (∀ k p, GethPersonal.import_raw_key d k p = AsyncGethPersonal.import_raw_key d k p)
  ∧ (GethPersonal.list_accounts d = AsyncGethPersonal.list_accounts d)
  ∧ (GethPersonal.list_wallets d = AsyncGethPersonal.list_wallets d)
  ∧ (∀ a, GethPersonal.lock_account d a = AsyncGethPersonal.lock_account d a)
  ∧ (∀ p, GethPersonal.new_account d p = AsyncGethPersonal.new_account d p)
  ∧ (∀ t p, GethPersonal.send_transaction d t p = AsyncGethPersonal.send_transaction d t p)
  ∧ (∀ m a p, GethPersonal.sign d m a p = AsyncGethPersonal.sign d m a p)
  ∧ (∀ m a p, GethPersonal.sign_typed_data d m a p = AsyncGethPersonal.sign_typed_data d m a p)
  ∧ (∀ a p v, GethPersonal.unlock_account d a p v = AsyncGethPersonal.unlock_account d a p v)
  ∧ (GethTxPool.content d = AsyncGethTxPool.content d)
  ∧ (GethTxPool.inspect d = AsyncGethTxPool.inspect d)
  ∧ (GethTxPool.status d = AsyncGethTxPool.status d)
  ∧ ((GethPersonal.list_accounts d).result = d.respond ⟨"personal_listAccounts", []⟩)
  ∧ ((AsyncGethPersonal.list_accounts d).result = d.respond ⟨"personal_listAccounts", []⟩) := by
  repeat' apply And.intro
  all_goals intros
  all_goals rfl

/-- C6: calling `unlock_account(account, passphrase)` with no duration
argument supplied (modelled by `none`) dispatches the underlying call with a
null third parameter — `[account, passphrase, Value.null]` — rather than
omitting it; this holds for the sync variant, the async variant and the
deprecated `unlockAccount` alias alike. -/
theorem unlock_account_null_duration (E : Type) (d : Dispatcher E)
    (account passphrase : Value) :
    GethPersonal.unlock_account d account passphrase none =
      ⟨[⟨"personal_unlockAccount", [account, passphrase, Value.null]⟩],
       d.respond ⟨"personal_unlockAccount", [account, passphrase, Value.null]⟩⟩
  ∧ AsyncGethPersonal.unlock_account d account passphrase none =
      ⟨[⟨"personal_unlockAccount", [account, passphrase, Value.null]⟩],
       d.respond ⟨"personal_unlockAccount", [account, passphrase, Value.null]⟩⟩
  ∧ GethPersonal.unlockAccount d account passphrase none =
      ⟨[⟨"personal_unlockAccount", [account, passphrase, Value.null]⟩],
       d.respond ⟨"personal_unlockAccount", [account, passphrase, Value.null]⟩⟩ :=
  ⟨rfl, rfl, rfl⟩

/-- C7: the Admin and Miner namespaces are synchronous only.  Every admin
operation (`addPeer`, `nodeInfo`, `peers`, `datadir`, `startRPC`, `startWS`,
`stopRPC`, `stopWS`) exists on the sync class `GethAdmin` and every miner
operation (`makeDag`, `setExtra`, `setEtherbase`, `setGasPrice`, `start`,
`stop`, `startAutoDag`, `stopAutoDag`) exists on the sync class `GethMiner`;
no class of the module exposes an async method bearing any admin or miner
operation name (in either naming convention); and Personal and TxPool each
have both a sync class and a (nonempty, fully async) async class. -/
theorem admin_miner_sync_only :
    ((["addPeer", "nodeInfo", "peers", "datadir", "startRPC", "startWS",
       "stopRPC", "stopWS"].all fun n =>
        gethAdminMethods.any fun m => m.name == n && !m.isAsync) = true)
  ∧ ((["makeDag", "setExtra", "setEtherbase", "setGasPrice", "start", "stop",
       "startAutoDag", "stopAutoDag"].all fun n =>
        gethMinerMethods.any fun m => m.name == n && !m.isAsync) = true)
  ∧ ((gethClasses.any fun c => c.name == "GethAdmin") = true)
  ∧ ((gethClasses.any fun c => c.name == "GethMiner") = true)
  ∧ ((gethClasses.all fun c => c.methods.all fun m =>
        !m.isAsync ||
        !((gethAdminMethods ++ gethMinerMethods).any fun m2 =>
            m2.name == m.name)) = true)
  ∧ ((gethClasses.any fun c =>
        c.name == "GethPersonal" && c.methods.all fun m => !m.isAsync) = true)
  ∧ ((gethClasses.any fun c =>
        c.name == "AsyncGethPersonal" && !c.methods.isEmpty &&
        c.methods.all fun m => m.isAsync) = true)
  ∧ ((gethClasses.any fun c =>
        c.name == "GethTxPool" && c.methods.all fun m => !m.isAsync) = true)
  ∧ ((gethClasses.any fun c =>
        c.name == "AsyncGethTxPool" && !c.methods.isEmpty &&
        c.methods.all fun m => m.isAsync) = true) := by
  decide

/-- C8: no operation mutates its inputs or the dispatcher's decoded value.
In this purely functional embedding of the layer — faithful to the source,
which contains no assignment or in-place update — each operation is exactly
`Dispatcher.callOne` applied to its untouched argument values: the arguments
reappear verbatim as the ordered parameters of the single issued call, and
the operation's value is the dispatcher's fresh response, unchanged, or its
error.  Stated for every argument-taking operation and for the cited
TxPool operations. -/
theorem no_input_mutation (E : Type) (d : Dispatcher E) :
    (∀ t p, GethPersonal.send_transaction d t p = d.callOne "personal_sendTransaction" [t, p])
  ∧ (∀ t p, AsyncGethPersonal.send_transaction d t p = d.callOne "personal_sendTransaction" [t, p])
  ∧ (∀ t p, GethPersonal.sendTransaction d t p = d.callOne "personal_sendTransaction" [t, p])
  ∧ (∀ m s, GethPersonal.ec_recover d m s = d.callOne "personal_ecRecover" [m, s])
  ∧ (∀ m s, AsyncGethPersonal.ec_recover d m s = d.callOne "personal_ecRecover" [m, s])
  ∧ (∀ m s, GethPersonal.ecRecover d m s = d.callOne "personal_ecRecover" [m, s])
  ∧ (∀ k p, GethPersonal.import_raw_key d k p = d.callOne "personal_importRawKey" [k, p])
  ∧ (∀ k p, AsyncGethPersonal.import_raw_key d k p = d.callOne "personal_importRawKey" [k, p])
  ∧ (∀ k p, GethPersonal.importRawKey d k p = d.callOne "personal_importRawKey" [k, p])
  ∧ (∀ a, GethPersonal.lock_account d a = d.callOne "personal_lockAccount" [a])
  ∧ (∀ a, AsyncGethPersonal.lock_account d a = d.callOne "personal_lockAccount" [a])
  ∧ (∀ a, GethPersonal.lockAccount d a = d.callOne "personal_lockAccount" [a])
  ∧ (∀ p, GethPersonal.new_account d p = d.callOne "personal_newAccount" [p])
  ∧ (∀ p, AsyncGethPersonal.new_account d p = d.callOne "personal_newAccount" [p])
  ∧ (∀ p, GethPersonal.newAccount d p = d.callOne "personal_newAccount" [p])
  ∧ (∀ m a p, GethPersonal.sign d m a p = d.callOne "personal_sign" [m, a, p])
  ∧ (∀ m a p, AsyncGethPersonal.sign d m a p = d.callOne "personal_sign" [m, a, p])
  ∧ (∀ m a p, GethPersonal.sign_typed_data d m a p = d.callOne "personal_signTypedData" [m, a, p])
  ∧ (∀ m a p, AsyncGethPersonal.sign_typed_data d m a p = d.callOne "personal_signTypedData" [m, a, p])
  ∧ (∀ m a p, GethPersonal.signTypedData d m a (some p) = d.callOne "personal_signTypedData" [m, a, p])
  ∧ (∀ a p v, GethPersonal.unlock_account d a p (some v) = d.callOne "personal_unlockAccount" [a, p, v])
  ∧ (∀ a p v, AsyncGethPersonal.unlock_account d a p (some v) = d.callOne "personal_unlockAccount" [a, p, v])
  ∧ (∀ a p v, GethPersonal.unlockAccount d a p (some v) = d.callOne "personal_unlockAccount" [a, p, v])
  ∧ (GethTxPool.content d = d.callOne "txpool_content" [])
  ∧ (GethTxPool.inspect d = d.callOne "txpool_inspect" [])
  ∧ (GethTxPool.status d = d.callOne "txpool_status" [])
  ∧ (AsyncGethTxPool.content d = d.callOne "txpool_content" [])
  ∧ (AsyncGethTxPool.inspect d = d.callOne "txpool_inspect" [])
  ∧ (AsyncGethTxPool.status d = d.callOne "txpool_status" [])
  ∧ (∀ u, GethAdmin.add_peer d u = d.callOne "admin_addPeer" [u])
  ∧ (∀ u, GethAdmin.addPeer d u = d.callOne "admin_addPeer" [u])
  ∧ (∀ xs, GethAdmin.start_rpc d xs = d.callOne "admin_startRPC" xs)
  ∧ (∀ xs, GethAdmin.start_ws d xs = d.callOne "admin_startWS" xs)
  ∧ (∀ xs, GethAdmin.startRPC d xs = d.callOne "admin_startRPC" xs)
  ∧ (∀ xs, GethAdmin.startWS d xs = d.callOne "admin_startWS" xs)
  ∧ (∀ n, GethMiner.make_dag d n = d.callOne "miner_makeDag" [n])
  ∧ (∀ n, GethMiner.makeDag d n = d.callOne "miner_makeDag" [n])
  ∧ (∀ x, GethMiner.set_extra d x = d.callOne "miner_setExtra" [x])
  ∧ (∀ x, GethMiner.setExtra d x = d.callOne "miner_setExtra" [x])
  ∧ (∀ e, GethMiner.set_etherbase d e = d.callOne "miner_setEtherbase" [e])
  ∧ (∀ e, GethMiner.setEtherbase d e = d.callOne "miner_setEtherbase" [e])
  ∧ (∀ g, GethMiner.set_gas_price d g = d.callOne "miner_setGasPrice" [g])
  ∧ (∀ g, GethMiner.setGasPrice d g = d.callOne "miner_setGasPrice" [g])
  ∧ (∀ xs, GethMiner.start d xs = d.callOne "miner_start" xs) := by
  repeat' apply And.intro
  all_goals intros
  all_goals rfl

/-- C9: the deprecated alias `signTypedData` of `GethPersonal` defaults its
`password` parameter to `None`: the two-argument call `signTypedData(message,
account)` (modelled by `none`) succeeds and dispatches with a null password,
whereas the canonical `sign_typed_data` declares `password` without a default
and so cannot be taken with only two positional arguments — the alias and
the canonical operation do not accept the same argument lists. -/
theorem signTypedData_default_password (E : Type) (d : Dispatcher E)
    (message account : Value) :
    GethPersonal.signTypedData d message account none =
      ⟨[⟨"personal_signTypedData", [message, account, Value.null]⟩],
       d.respond ⟨"personal_signTypedData", [message, account, Value.null]⟩⟩
  ∧ (⟨"signTypedData", some [rq "message", rq "account", dft "password"],
       false⟩ : PyMethod) ∈ gethPersonalMethods
  ∧ acceptsPositional
      ⟨"signTypedData", some [rq "message", rq "account", dft "password"],
       false⟩ 2 = true
  ∧ (⟨"sign_typed_data", some [rq "message", rq "account", rq "password"],
       false⟩ : PyMethod) ∈ gethPersonalMethods
  ∧ acceptsPositional
      ⟨"sign_typed_data", some [rq "message", rq "account", rq "password"],
       false⟩ 2 = false := by
  exact ⟨rfl, by decide, by decide, by decide, by decide⟩

/-- C10: the aggregate `Geth` class declares exactly two namespace
attributes — `personal`, annotated `GethPersonal`, and `admin`, annotated
`GethAdmin`; neither the miner nor the txpool namespace is attached to the
aggregate, while the standalone classes `GethMiner`, `GethTxPool` and
`AsyncGethTxPool` do exist in the module. -/
theorem geth_aggregate_attrs :
    ("personal", "GethPersonal") ∈ gethAttributes
  ∧ ("admin", "GethAdmin") ∈ gethAttributes
  ∧ gethAttributes.length = 2
  ∧ ((gethAttributes.any fun a =>
        a.1 == "miner" || a.1 == "txpool" || a.2 == "GethMiner" ||
        a.2 == "GethTxPool" || a.2 == "AsyncGethTxPool") = false)
  ∧ ((gethClasses.any fun c => c.name == "GethMiner") = true)
  ∧ ((gethClasses.any fun c => c.name == "GethTxPool") = true)
  ∧ ((gethClasses.any fun c => c.name == "AsyncGethTxPool") = true) := by
  decide
